import Mathlib

/-!
Verification of the Robusta Supabase data-access layer
(`src/robusta/core/sinks/robusta/dal/supabase_dal.py`).

The module is embedded shallowly: every method of `SupabaseDal` becomes a
pure Lean function.  Side effects are made explicit:

* network responses come from an oracle `net : Nat → RpcResponse` giving the
  envelope returned by the n-th remote call of the operation;
* Python exceptions become an `Except PyErr` result (or an `Option PyErr`
  channel where a value is still produced before the raise);
* `logging.*` calls accumulate into a `List String` (messages are modelled by
  their constant prefix; interpolated runtime values are dropped);
* the mutable `self.sign_in_time` field lives in the `Dal` state record that
  operations take and return;
* `time.time()` is a `Nat` supplied by the caller (`SignInEnv.now`).

Collaborator code that is not part of this module (the `Transformer`,
`TopServiceResolver`, `PlaybookCallbackRequest`, `base64`/`json` codecs and
`ServiceInfo.get_service_key`) is passed in as opaque function parameters in
an `Externals` record, exactly at the call sites where the source invokes it.
-/

namespace Robusta

/-- Python exceptions that this module can raise or observe. -/
inductive PyErr where
  /-- Python `ValueError`, e.g. from `str.rindex` when the character is absent. -/
  | valueError (msg : String)
  /-- Python `IndexError`, e.g. from `res.get("data")[0]` on an empty list. -/
  | indexError
  /-- a generic `Exception(msg)` as raised by `get_active_services`. -/
  | exn (msg : String)
  deriving DecidableEq, Repr

/-- Modelled from the spec: `FindingSeverity` is an integer-valued enum of the
reporting subsystem (not under `src/`); `.name` is the symbolic member name and
`.value` the ordinal. -/
inductive FindingSeverity where
  | DEBUG | INFO | LOW | MEDIUM | HIGH
  deriving DecidableEq, Repr

def FindingSeverity.name : FindingSeverity → String
  | .DEBUG => "DEBUG"
  | .INFO => "INFO"
  | .LOW => "LOW"
  | .MEDIUM => "MEDIUM"
  | .HIGH => "HIGH"

def FindingSeverity.value : FindingSeverity → Nat
  | .DEBUG => 0
  | .INFO => 1
  | .LOW => 2
  | .MEDIUM => 3
  | .HIGH => 4

/-- Modelled from the spec: `FindingSource` is a string-valued enum; `.value`
is its wire string. -/
structure FindingSource where
  value : String
  deriving DecidableEq, Repr

/-- Modelled from the spec: `FindingType` is a string-valued enum whose
`.value` is the lower-case symbolic name of the member (no ordinal). -/
inductive FindingType where
  | ISSUE | CONF_CHANGE | HEALTH_CHECK | REPORT
  deriving DecidableEq, Repr

def FindingType.value : FindingType → String
  | .ISSUE => "issue"
  | .CONF_CHANGE => "conf_change"
  | .HEALTH_CHECK => "health_check"
  | .REPORT => "report"

/-- Modelled from the spec: `FindingSubjectType` is a string-valued enum whose
`.value` is the lower-case symbolic name of the member (no ordinal). -/
inductive FindingSubjectType where
  | NONE | DEPLOYMENT | NODE | POD | JOB | DAEMONSET
  deriving DecidableEq, Repr

def FindingSubjectType.value : FindingSubjectType → String
  | .NONE => "none"
  | .DEPLOYMENT => "deployment"
  | .NODE => "node"
  | .POD => "pod"
  | .JOB => "job"
  | .DAEMONSET => "daemonset"

/-- Modelled from the spec: the subject of a Finding (name, namespace and
subject type).  `namespace` is a Lean keyword, hence the trailing underscore. -/
structure FindingSubject where
  name : String
  namespace_ : String
  subject_type : FindingSubjectType
  deriving DecidableEq, Repr

/-- Modelled from the spec: one entry of `KubernetesDiffBlock.diffs`; only its
`formatted_path` is consumed here. -/
structure DiffDetail where
  formatted_path : String
  deriving DecidableEq, Repr

/-- Modelled from the spec: enrichment categories are a string-valued enum;
only `.value` is consumed here. -/
structure EnrichmentCategory where
  value : String
  deriving DecidableEq, Repr

/-- Modelled from the spec: the closed set of block variants dispatched on in
`to_evidence`.  `UnknownBlock` stands for any object of a type outside the
eight recognised classes (the final `else` branch of the dispatch). -/
inductive Block where
  | MarkdownBlock (text : String)
  | DividerBlock
  | FileBlock (filename : String) (contents : List Nat)
  | HeaderBlock (text : String)
  | ListBlock (items : List String)
  | TableBlock (headers : List String) (rows : List (List String))
      (column_renderers : List (String × String))
  | KubernetesDiffBlock (old : String) (new : String) (resource_name : String)
      (num_additions : Nat) (num_deletions : Nat) (num_modifications : Nat)
      (diffs : List DiffDetail)
  | CallbackBlock (context : List (String × String))
      (choices : List (String × String))
  | UnknownBlock (typeName : String)
  deriving DecidableEq, Repr

/-- Modelled from the spec: an Enrichment is an ordered block sequence with an
optional category. -/
structure Enrichment where
  blocks : List Block
  category : Option EnrichmentCategory
  deriving DecidableEq, Repr

/-- Modelled from the spec: the Finding attributes consumed by this module. -/
structure Finding where
  aggregation_key : String
  severity : FindingSeverity
  subject : FindingSubject
  source : FindingSource
  finding_type : FindingType
  fingerprint : String
  title : String
  description : String
  failure : Bool
  enrichments : List Enrichment
  deriving DecidableEq, Repr

/-- Modelled from the spec: the service record of the discovery subsystem. -/
structure ServiceInfo where
  name : String
  service_type : String
  namespace_ : String
  classification : String
  deleted : Bool
  deriving DecidableEq, Repr

/-- The `SupabaseDal` instance state: constructor-supplied configuration plus
the mutable `sign_in_time`.  `login_rate_limit` models the module constant
`SUPABASE_LOGIN_RATE_LIMIT_SEC` (configuration read at import time). -/
structure Dal where
  url : String
  key : String
  account_id : String
  email : String
  password : String
  sink_name : String
  cluster : String
  target_id : String
  sign_in_time : Nat
  login_rate_limit : Nat
  deriving DecidableEq, Repr

/-- Payload of one `{type, data}` entry of the structured-data list built by
`to_evidence` (the `data` key; a divider entry has no `data` key at all, which
is `Option.none` at the `Entry` level). -/
inductive EntryData where
  | str (s : String)
  | items (l : List String)
  | table (headers : List String) (rows : List (List String))
      (column_renderers : List (String × String))
  | diff (old : String) (new : String) (resource_name : String)
      (num_additions : Nat) (num_deletions : Nat) (num_modifications : Nat)
      (updated_paths : List String)
  | callbacks (cbs : List (String × String))
  deriving DecidableEq, Repr

/-- One entry of the structured-data list of an Evidence record. -/
structure Entry where
  type : String
  data : Option EntryData
  deriving DecidableEq, Repr

/-- The wire record built by `to_issue`. -/
structure WireIssue where
  name : String
  account_id : String
  priority : String
  service_key : String
  source : String
  category : String
  fingerprint : String
  title : String
  start_date : String
  end_date : Option String
  description : String
  is_failure : Bool
  subject_type : String
  subject_name : String
  subject_namespace : String
  subject_cluster : String
  deriving DecidableEq, Repr

/-- The wire record built by `to_evidence`; `data` is the `json.dumps` of the
structured-data list. -/
structure WireEvidence where
  finding_id : String
  data : String
  account_id : String
  category : Option String
  deriving DecidableEq, Repr

/-- The wire record built by `to_service`. -/
structure WireService where
  name : String
  type : String
  namespace_ : String
  classification : String
  cluster : String
  account_id : String
  deleted : Bool
  service_key : String
  update_time : String
  deriving DecidableEq, Repr

/-- External collaborators invoked by this module but defined elsewhere
(`Transformer.to_github_markdown`, `base64.b64encode` composed with `str`,
`TopServiceResolver.guess_service_key`,
`PlaybookCallbackRequest.create_for_func(...).json()`, `json.dumps`, and
`ServiceInfo.get_service_key`).  They are opaque parameters of the model. -/
structure Externals where
  to_github_markdown : String → String
  b64encode : List Nat → String
  guess_service_key : String → String → String
  callback_request_json : String → String → String → String
  json_dumps_ctx : List (String × String) → String
  json_dumps_entries : List Entry → String
  get_service_key : ServiceInfo → String

/-- Model of `str.rindex`: index of the last occurrence of `c`, if any. -/
def lastIndexOf : List Char → Char → Option Nat
  | [], _ => none
  | x :: xs, c =>
    match lastIndexOf xs c with
    | some i => some (i + 1)
    | none => if x = c then some 0 else none

/-- Rendering `str(x)` of an optional string (Python renders `None` as `"None"`);
used for `str(finding_id)`. -/
def optToStr : Option String → String
  | none => "None"
  | some s => s

/-- Python dict assignment `ctx[k] = v`. -/
def dictSet (ctx : List (String × String)) (k v : String) :
    List (String × String) :=
  if ctx.any (fun p => p.1 = k) then
    ctx.map (fun p => if p.1 = k then (k, v) else p)
  else
    ctx ++ [(k, v)]

/-- Membership test replacing `x not in codes` on `res.get("status_code")`, negated: `statusIn s codes`
is true iff the (possibly absent) status code is in `codes`. -/
def statusIn (s : Option Int) (codes : List Int) : Bool :=
  match s with
  | some v => codes.contains v
  | none => false

/-- Log line of the `else` branch of the block dispatch in `to_evidence`. -/
def unknownBlockLog (typeName : String) : String :=
  "cannot convert block of type " ++ typeName ++
    " to robusta platform format block"

/-- One iteration of the block loop of `to_evidence`: either an entry is
appended (`some`), the block is skipped (`none`), or a `ValueError` escapes
(the `FileBlock` branch calls `block.filename.rindex "."`).  The second
component collects log lines. -/
def encodeBlock (ext : Externals) (d : Dal) :
    Block → Except PyErr (Option Entry) × List String
  | .MarkdownBlock text =>
    if text = "" then (.ok none, [])
    else (.ok (some ⟨"markdown", some (.str (ext.to_github_markdown text))⟩), [])
  | .DividerBlock => (.ok (some ⟨"divider", none⟩), [])
  | .FileBlock filename contents =>
    match lastIndexOf filename.data '.' with
    | none => (.error (.valueError "substring not found"), [])
    | some i =>
      (.ok (some ⟨(filename.data.drop (i + 1)).asString,
        some (.str (ext.b64encode contents))⟩), [])
  | .HeaderBlock text => (.ok (some ⟨"header", some (.str text)⟩), [])
  | .ListBlock items => (.ok (some ⟨"list", some (.items items)⟩), [])
  | .TableBlock headers rows column_renderers =>
    (.ok (some ⟨"table", some (.table headers rows column_renderers)⟩), [])
  | .KubernetesDiffBlock old new resource_name na nd nm diffs =>
    (.ok (some ⟨"diff", some (.diff old new resource_name na nd nm
      (diffs.map (fun x => x.formatted_path)))⟩), [])
  | .CallbackBlock context choices =>
    let ctx := dictSet (dictSet context "target_id" d.target_id)
      "sink_name" d.sink_name
    let cbs := choices.map (fun p =>
      (p.1, ext.callback_request_json p.2 (ext.json_dumps_ctx ctx) p.1))
    (.ok (some ⟨"callbacks", some (.callbacks cbs)⟩), [])
  | .UnknownBlock typeName => (.ok none, [unknownBlockLog typeName])

/-- The block loop of `to_evidence`: builds `structured_data` in order; a
raised `ValueError` aborts the loop and escapes. -/
def encodeBlocks (ext : Externals) (d : Dal) :
    List Block → Except PyErr (List Entry) × List String
  | [] => (.ok [], [])
  | b :: bs =>
    match encodeBlock ext d b with
    | (.error e, lg) => (.error e, lg)
    | (.ok none, lg) =>
      let r := encodeBlocks ext d bs
      (r.1, lg ++ r.2)
    | (.ok (some en), lg) =>
      let r := encodeBlocks ext d bs
      (r.1.map (fun l => en :: l), lg ++ r.2)

/-- Method `SupabaseDal.to_evidence`. -/
def to_evidence (ext : Externals) (d : Dal) (finding_id : String)
    (e : Enrichment) : Except PyErr WireEvidence × List String :=
  match encodeBlocks ext d e.blocks with
  | (.error err, lg) => (.error err, lg)
  | (.ok entries, lg) =>
    (.ok { finding_id := finding_id
           data := ext.json_dumps_entries entries
           account_id := d.account_id
           category := e.category.map (fun c => c.value) }, lg)

/-- Method `SupabaseDal.to_issue`; `nowIso` is the value of
`datetime.datetime.utcnow().isoformat()` at encode time. -/
def to_issue (ext : Externals) (nowIso : String) (d : Dal) (f : Finding) :
    WireIssue :=
  { name := f.aggregation_key
    account_id := d.account_id
    priority := f.severity.name
    service_key := ext.guess_service_key f.subject.name f.subject.namespace_
    source := f.source.value
    category := f.finding_type.value
    fingerprint := f.fingerprint
    title := f.title
    start_date := nowIso
    end_date := none
    description := f.description
    is_failure := f.failure
    subject_type := f.subject.subject_type.value
    subject_name := f.subject.name
    subject_namespace := f.subject.namespace_
    subject_cluster := d.cluster }

/-- Method `SupabaseDal.to_service`. -/
def to_service (ext : Externals) (d : Dal) (s : ServiceInfo) : WireService :=
  { name := s.name
    type := s.service_type
    namespace_ := s.namespace_
    classification := s.classification
    cluster := d.cluster
    account_id := d.account_id
    deleted := s.deleted
    service_key := ext.get_service_key s
    update_time := "now()" }

/-- Environment of one `sign_in` call: the value of `time.time()` and the
outcome of `self.client.auth.sign_in(...)` (`some e` when the remote login
raises `e`). -/
structure SignInEnv where
  now : Nat
  auth_result : Option PyErr
  deriving DecidableEq, Repr

/-- Method `SupabaseDal.sign_in`.  Returns the new state, whether the actual login
call was issued, the exception escaping from the login call (if any — note
the timestamp is recorded before the call is made), and the log lines. -/
def sign_in (env : SignInEnv) (d : Dal) :
    Dal × Bool × Option PyErr × List String :=
  if env.now > d.sign_in_time + d.login_rate_limit then
    ({ d with sign_in_time := env.now }, true, env.auth_result,
      ["Supabase dal login"])
  else
    (d, false, none, [])

/-- Method `SupabaseDal.handle_supabase_error`: `try: self.sign_in() except: log`.
The `Except` result is its exception channel towards the caller. -/
def handle_supabase_error (env : SignInEnv) (d : Dal) :
    Except PyErr (Dal × Bool × List String) :=
  let r := sign_in env d
  match r.2.2.1 with
  | some _ => .ok (r.1, r.2.1, r.2.2.2 ++ ["Failed to signin on error"])
  | none => .ok (r.1, r.2.1, r.2.2.2)

/-- A row of the `data` list of a successful `insert_finding_v1` response;
the fields read via `res_data.get(...)` may be absent. -/
structure FindingRow where
  id : Option String
  inserted : Option Bool
  deriving DecidableEq, Repr

/-- The uniform response envelope `{status_code, data}`; `res.get(...)` may
find no status at all. -/
structure RpcResponse where
  status_code : Option Int
  data : List FindingRow
  deriving DecidableEq, Repr

/-- One remote call issued by `persist_finding` (trace element). -/
inductive RpcCall where
  | insert_finding (payload : WireIssue)
  | insert_enrichment (payload : WireEvidence)
  deriving DecidableEq, Repr

/-- One remote call issued by `persist_service` (trace element). -/
inductive TableCall where
  | insert (payload : WireService) (upsert : Bool)
  deriving DecidableEq, Repr

/-- The enrichment loop at the end of `persist_finding`.  `k` is the index of
the next remote call (the oracle argument).  A non-2xx enrichment insert is
only logged; an exception from `to_evidence` escapes and aborts the loop. -/
def persist_enrichments (ext : Externals) (net : Nat → RpcResponse) (d : Dal)
    (finding_id : String) :
    Nat → List Enrichment → Except PyErr Unit × List RpcCall × List String
  | _, [] => (.ok (), [], [])
  | k, e :: es =>
    match to_evidence ext d finding_id e with
    | (.error err, lg) => (.error err, [], lg)
    | (.ok ev, lg) =>
      let res := net k
      let errlg := if statusIn res.status_code [200, 201] then []
        else ["Failed to persist enrichment. Dropping enrichment"]
      let rest := persist_enrichments ext net d finding_id (k + 1) es
      (rest.1, .insert_enrichment ev :: rest.2.1, lg ++ errlg ++ rest.2.2)

/-- Method `SupabaseDal.persist_finding`.  `net n` is the envelope returned by the
n-th remote call (call 0 is `insert_finding_v1`, calls 1.. are
`insert_enrichment_v1`); `env` drives a possible `handle_supabase_error`.
Returns the exception channel, the final state, the remote-call trace and the
log lines. -/
def persist_finding (ext : Externals) (net : Nat → RpcResponse)
    (env : SignInEnv) (nowIso : String) (d : Dal) (f : Finding) :
    Except PyErr Unit × Dal × List RpcCall × List String :=
  let issue := to_issue ext nowIso d f
  let res := net 0
  if statusIn res.status_code [200, 201] then
    match res.data with
    | [] => (.error .indexError, d, [.insert_finding issue], [])
    | row :: _ =>
      let fid := optToStr row.id
      let infoLg := if row.inserted = some true then []
        else ["this finding already exists in supabase; updating existing"]
      let rest := persist_enrichments ext net d fid 1 f.enrichments
      (rest.1, d, .insert_finding issue :: rest.2.1, infoLg ++ rest.2.2)
  else
    match handle_supabase_error env d with
    | .ok (d', _, lg) =>
      (.ok (), d', [.insert_finding issue],
        ["Failed to persist finding. Dropping Finding"] ++ lg)
    | .error e =>
      (.error e, d, [.insert_finding issue],
        ["Failed to persist finding. Dropping Finding"])

/-- Method `SupabaseDal.persist_service`. -/
def persist_service (ext : Externals) (net : Nat → RpcResponse)
    (env : SignInEnv) (d : Dal) (s : ServiceInfo) :
    Except PyErr Unit × Dal × List TableCall × List String :=
  let db_service := to_service ext d s
  let res := net 0
  if statusIn res.status_code [200, 201] then
    (.ok (), d, [.insert db_service true], [])
  else
    match handle_supabase_error env d with
    | .ok (d', _, lg) =>
      (.ok (), d', [.insert db_service true],
        ["Failed to persist service"] ++ lg)
    | .error e =>
      (.error e, d, [.insert db_service true], ["Failed to persist service"])

/-- Value carried by an `eq` filter of the services query. -/
inductive FilterVal where
  | s (v : String)
  | b (v : Bool)
  deriving DecidableEq, Repr

/-- One `.filter(field, op, value)` clause of a table query. -/
structure Filter where
  field : String
  op : String
  value : FilterVal
  deriving DecidableEq, Repr

/-- A stored row of the `Services` table (remote collaborator state). -/
structure ServicesTableRow where
  name : String
  service_type : String
  namespace_ : String
  classification : String
  cluster : String
  account_id : String
  deleted : Bool
  deriving DecidableEq, Repr

/-- Column lookup on a stored services row. -/
def rowField (r : ServicesTableRow) : String → Option FilterVal
  | "name" => some (.s r.name)
  | "type" => some (.s r.service_type)
  | "namespace" => some (.s r.namespace_)
  | "classification" => some (.s r.classification)
  | "cluster" => some (.s r.cluster)
  | "account_id" => some (.s r.account_id)
  | "deleted" => some (.b r.deleted)
  | _ => none

/-- Modelled from the spec: the remote table REST contract honours each
`eq` filter literally — a row passes iff the named column equals the value. -/
def matchesFilter (r : ServicesTableRow) (flt : Filter) : Bool :=
  decide (flt.op = "eq") && decide (rowField r flt.field = some flt.value)

/-- Modelled from the spec: executing a filtered select returns exactly the
stored rows passing every filter. -/
def applyFilters (rows : List ServicesTableRow) (fs : List Filter) :
    List ServicesTableRow :=
  rows.filter (fun r => fs.all (matchesFilter r))

/-- The three filter clauses issued by `get_active_services`. -/
def activeServicesFilters (d : Dal) : List Filter :=
  [⟨"account_id", "eq", .s d.account_id⟩,
   ⟨"cluster", "eq", .s d.cluster⟩,
   ⟨"deleted", "eq", .b false⟩]

/-- The `ServiceInfo` constructor call in `get_active_services` (the `deleted`
flag keeps its default). -/
def rowToServiceInfo (r : ServicesTableRow) : ServiceInfo :=
  { name := r.name
    service_type := r.service_type
    namespace_ := r.namespace_
    classification := r.classification
    deleted := false }

/-- Method `SupabaseDal.get_active_services`.  `store` is the remote table content
and `status` the status code of the query response; on status 200 the data is
the filtered selection (see `applyFilters`).  Returns the result-or-exception,
the final state and the log lines. -/
def get_active_services (store : List ServicesTableRow) (status : Option Int)
    (env : SignInEnv) (d : Dal) :
    Except PyErr (List ServiceInfo) × Dal × List String :=
  if statusIn status [200] then
    (.ok ((applyFilters store (activeServicesFilters d)).map rowToServiceInfo),
      d, [])
  else
    match handle_supabase_error env d with
    | .ok (d', _, lg) =>
      (.error (.exn "Failed to get existing services (supabase)"), d',
        ["Failed to get existing services (supabase)"] ++ lg)
    | .error e =>
      (.error e, d, ["Failed to get existing services (supabase)"])

/-- A Boolean marker for blocks whose encoding cannot raise: only a
`FileBlock` whose filename contains no dot makes `encodeBlock` raise. -/
def blockEncodable : Block → Bool
  | .FileBlock fn _ => (lastIndexOf fn.data '.').isSome
  | _ => true

/-! Concrete fixtures used to evaluate the model on closed inputs. -/

/-- Concrete external collaborators (arbitrary total functions). -/
def ext0 : Externals :=
  { to_github_markdown := fun t => t
    b64encode := fun _ => "QQ=="
    guess_service_key := fun n ns => n ++ "/" ++ ns
    callback_request_json := fun _ _ t => t
    json_dumps_ctx := fun _ => "ctx"
    json_dumps_entries := fun _ => "[]"
    get_service_key := fun s => s.name ++ "/" ++ s.namespace_ }

/-- A concrete Dal state (rate limit 900 s, as the default
`SUPABASE_LOGIN_RATE_LIMIT_SEC`). -/
def d0 : Dal :=
  { url := "https://db.example"
    key := "k"
    account_id := "acct-1"
    email := "e@example"
    password := "pw"
    sink_name := "robusta"
    cluster := "cluster-1"
    target_id := "target-1"
    sign_in_time := 0
    login_rate_limit := 900 }

/-- A concrete sign-in environment: the clock reads 1000 and the remote login
succeeds. -/
def env0 : SignInEnv := ⟨1000, none⟩

/-- Oracle answering every call with a 200 envelope holding one inserted row. -/
def netOk : Nat → RpcResponse := fun _ => ⟨some 200, [⟨some "fid1", some true⟩]⟩

/-- Oracle answering every call with a 500 envelope. -/
def netBad : Nat → RpcResponse := fun _ => ⟨some 500, []⟩

/-- Oracle for the C2 witness: the Issue insert succeeds, the first
enrichment insert is rejected (500), later ones succeed. -/
def netMixed : Nat → RpcResponse := fun n =>
  if n = 0 then ⟨some 200, [⟨some "fid1", some true⟩]⟩
  else if n = 1 then ⟨some 500, []⟩
  else ⟨some 201, []⟩

/-- A concrete finding subject. -/
def subj0 : FindingSubject := ⟨"pod-1", "default", .POD⟩

/-- A concrete finding with the given enrichments. -/
def mkFinding (es : List Enrichment) : Finding :=
  { aggregation_key := "crash_loop"
    severity := .HIGH
    subject := subj0
    source := ⟨"kubernetes_api_server"⟩
    finding_type := .ISSUE
    fingerprint := "abc"
    title := "pod crash"
    description := "d"
    failure := true
    enrichments := es }

/-- Enrichment whose only block is a `FileBlock` with a dotless filename. -/
def enrDotless : Enrichment := ⟨[.FileBlock "noext" []], none⟩

/-- Harmless divider enrichment. -/
def enrDivider : Enrichment := ⟨[.DividerBlock], none⟩

/-- Harmless header enrichment. -/
def enrHeader : Enrichment := ⟨[.HeaderBlock "h"], none⟩

/-- Finding whose single enrichment encoding raises (dotless file name). -/
def fRaise : Finding := mkFinding [enrDotless]

/-- Finding with a raising first enrichment and a well-formed second one. -/
def fTwo : Finding := mkFinding [enrDotless, enrDivider]

/-- Well-formed finding with two enrichments. -/
def fGood : Finding := mkFinding [enrDivider, enrHeader]

/-- A concrete service. -/
def svc0 : ServiceInfo := ⟨"svc", "deployment", "default", "app", false⟩

/-- The evidence value `to_evidence ext0 d0 "fid1"` produces on a well-formed
enrichment (fallback record on a raising one). -/
def evid0 (e : Enrichment) : WireEvidence :=
  match (to_evidence ext0 d0 "fid1" e).1 with
  | .ok ev => ev
  | .error _ => ⟨"", "", "", none⟩

/-- The evidence record of `enrDivider` under finding id "f". -/
def evDivider : WireEvidence := ⟨"f", "[]", "acct-1", none⟩

/-- Remote services table for the C4 witness: one matching row and one row
failing each of the three filters. -/
def store0 : List ServicesTableRow :=
  [⟨"s1", "deployment", "default", "app", "cluster-1", "acct-1", false⟩,
   ⟨"s2", "deployment", "default", "app", "cluster-1", "acct-2", false⟩,
   ⟨"s3", "deployment", "default", "app", "cluster-9", "acct-1", false⟩,
   ⟨"s4", "deployment", "default", "app", "cluster-1", "acct-1", true⟩]

/-- Whether an exception-channel result is a normal return. -/
def exceptOk {α : Type} : Except PyErr α → Bool
  | .ok _ => true
  | .error _ => false

/-! ## Helper lemmas -/

/-- Lemma: `handle_supabase_error` always returns `.ok` and delegates to `sign_in`,
turning an escaped login exception into one extra log line. -/
theorem handle_spec (env : SignInEnv) (d : Dal) :
    handle_supabase_error env d =
      .ok ((sign_in env d).1, (sign_in env d).2.1,
        (sign_in env d).2.2.2 ++
          (if (sign_in env d).2.2.1.isSome then ["Failed to signin on error"]
           else [])) := by
  unfold handle_supabase_error
  cases h : (sign_in env d).2.2.1 <;> simp [h]

/-- The structured-data built for a concatenation of block lists: the prefix
either raises, or its entries are prepended to whatever the suffix yields. -/
theorem encodeBlocks_append (ext : Externals) (d : Dal) (xs ys : List Block) :
    (encodeBlocks ext d (xs ++ ys)).1 =
      match (encodeBlocks ext d xs).1 with
      | .error e => .error e
      | .ok l1 => ((encodeBlocks ext d ys).1).map (fun l2 => l1 ++ l2) := by
  induction xs with
  | nil =>
    cases h : (encodeBlocks ext d ys).1 <;> simp [encodeBlocks, h, Except.map]
  | cons b bs ih =>
    rcases h : encodeBlock ext d b with ⟨r, lg⟩
    cases r with
    | error e => simp [encodeBlocks, h]
    | ok o =>
      cases o with
      | none => simp [encodeBlocks, h, ih]
      | some en =>
        simp only [List.cons_append, encodeBlocks, h]
        simp only [List.append_eq]
        rw [ih]
        cases h2 : (encodeBlocks ext d bs).1 with
        | error e => simp [Except.map]
        | ok l1 =>
          cases h3 : (encodeBlocks ext d ys).1 <;> simp [Except.map]

/-- A block marked encodable never raises in `encodeBlock`. -/
theorem encodeBlock_ok (ext : Externals) (d : Dal) (b : Block)
    (h : blockEncodable b = true) :
    ∃ o lg, encodeBlock ext d b = (.ok o, lg) := by
  cases b with
  | MarkdownBlock text =>
    by_cases ht : text = "" <;> simp [encodeBlock, ht]
  | FileBlock fn contents =>
    cases hi : lastIndexOf fn.data '.' with
    | none => simp [blockEncodable, hi] at h
    | some i => simp [encodeBlock, hi]
  | _ => simp [encodeBlock]

/-- A list of encodable blocks never raises in `encodeBlocks`. -/
theorem encodeBlocks_ok (ext : Externals) (d : Dal) (bs : List Block)
    (h : ∀ b ∈ bs, blockEncodable b = true) :
    ∃ l lg, encodeBlocks ext d bs = (.ok l, lg) := by
  induction bs with
  | nil => exact ⟨[], [], rfl⟩
  | cons b bs ih =>
    obtain ⟨o, lg, hb⟩ := encodeBlock_ok ext d b (h b (by simp))
    obtain ⟨l, lg2, hbs⟩ := ih (fun x hx => h x (by simp [hx]))
    cases o with
    | none => exact ⟨l, lg ++ lg2, by simp [encodeBlocks, hb, hbs]⟩
    | some en => exact ⟨en :: l, lg ++ lg2, by simp [encodeBlocks, hb, hbs, Except.map]⟩

/-- When every enrichment of the list encodes successfully (to the value given
by `evidOf`), the loop sends each encoded evidence exactly once, in order,
independently of the per-call response statuses. -/
theorem persist_enrichments_all_sent (ext : Externals) (net : Nat → RpcResponse)
    (d : Dal) (fid : String) (evidOf : Enrichment → WireEvidence) :
    ∀ (es : List Enrichment) (k : Nat),
      (∀ e ∈ es, (to_evidence ext d fid e).1 = .ok (evidOf e)) →
      (persist_enrichments ext net d fid k es).1 = .ok () ∧
      (persist_enrichments ext net d fid k es).2.1 =
        es.map (fun e => RpcCall.insert_enrichment (evidOf e)) := by
  intro es
  induction es with
  | nil => intro k _; simp [persist_enrichments]
  | cons e es ih =>
    intro k h
    have he : (to_evidence ext d fid e).1 = .ok (evidOf e) := h e (by simp)
    rcases hte : to_evidence ext d fid e with ⟨r, lg⟩
    rw [hte] at he
    simp only at he
    subst he
    obtain ⟨ih1, ih2⟩ := ih (k + 1) (fun x hx => h x (by simp [hx]))
    constructor
    · simp [persist_enrichments, hte, ih1]
    · simp [persist_enrichments, hte, ih2]

/-! ## Claim theorems -/

/-- C3 (counterexample): the claim "the evidence encoder never raises: every
malformed block is dropped" is false — on an enrichment holding a `FileBlock`
whose filename contains no dot, `to_evidence` raises the `ValueError` escaping
from `filename.rindex "."` instead of dropping the block. -/
theorem to_evidence_raises_on_dotless_file :
    (to_evidence ext0 d0 "fid1" enrDotless).1 =
      .error (.valueError "substring not found") := by rfl

/-- C3 (amended): `to_evidence` never raises on an enrichment whose blocks are
all encodable (in particular, whose `FileBlock`s all carry a dotted filename);
a block of unrecognized variant is dropped — the structured data equals that
of the same block list without it — and an error line is logged for it, while
encoding of the remaining blocks continues. -/
theorem to_evidence_degrades_gracefully (ext : Externals) (d : Dal)
    (fid : String) (e : Enrichment) (bs1 bs2 : List Block) (t : String) :
    ((∀ b ∈ e.blocks, blockEncodable b = true) →
      exceptOk (to_evidence ext d fid e).1 = true)
    ∧ (encodeBlocks ext d (bs1 ++ Block.UnknownBlock t :: bs2)).1 =
        (encodeBlocks ext d (bs1 ++ bs2)).1
    ∧ encodeBlock ext d (Block.UnknownBlock t) =
        (.ok none, [unknownBlockLog t]) := by
  refine ⟨?_, ?_, rfl⟩
  · intro h
    obtain ⟨l, lg, hl⟩ := encodeBlocks_ok ext d e.blocks h
    simp [to_evidence, hl, exceptOk]
  · rw [encodeBlocks_append, encodeBlocks_append]
    have hu : (encodeBlocks ext d (Block.UnknownBlock t :: bs2)).1 =
        (encodeBlocks ext d bs2).1 := by
      simp [encodeBlocks, encodeBlock]
    rw [hu]

/-- C3 (witness): the amended theorem applied to the divider enrichment. -/
theorem to_evidence_degrades_gracefully_w :
    exceptOk (to_evidence ext0 d0 "fid1" enrDivider).1 = true :=
  (to_evidence_degrades_gracefully ext0 d0 "fid1" enrDivider [] [] "T").1
    (by decide)

/-- C9: within any block list, a Markdown block with empty text contributes no
entry to the structured-data sequence: whenever both encodings succeed, the
sequence for the non-empty-text variant is exactly one entry longer. -/
theorem empty_markdown_skipped (ext : Externals) (d : Dal)
    (bs1 bs2 : List Block) (t : String) (l1 l2 : List Entry)
    (ht : t ≠ "")
    (h1 : (encodeBlocks ext d (bs1 ++ Block.MarkdownBlock "" :: bs2)).1 =
      .ok l1)
    (h2 : (encodeBlocks ext d (bs1 ++ Block.MarkdownBlock t :: bs2)).1 =
      .ok l2) :
    l2.length = l1.length + 1 := by
  rw [encodeBlocks_append] at h1 h2
  cases ha : (encodeBlocks ext d bs1).1 with
  | error e => rw [ha] at h1; simp at h1
  | ok a =>
    rw [ha] at h1 h2
    have hm0 : (encodeBlocks ext d (Block.MarkdownBlock "" :: bs2)).1 =
        (encodeBlocks ext d bs2).1 := by
      simp [encodeBlocks, encodeBlock]
    have hmt : (encodeBlocks ext d (Block.MarkdownBlock t :: bs2)).1 =
        Except.map
          (fun l => (⟨"markdown", some (.str (ext.to_github_markdown t))⟩ : Entry) :: l)
          (encodeBlocks ext d bs2).1 := by
      simp [encodeBlocks, encodeBlock, ht]
    rw [hm0] at h1
    rw [hmt] at h2
    cases hb : (encodeBlocks ext d bs2).1 with
    | error e => rw [hb] at h1; simp [Except.map] at h1
    | ok b =>
      rw [hb] at h1 h2
      simp [Except.map] at h1 h2
      subst h1; subst h2
      simp
      omega

/-- C9 (witness): concretely, a divider preceded by empty markdown yields one
entry while the same with non-empty markdown yields two. -/
theorem empty_markdown_skipped_w :
    (⟨"markdown", some (.str "hello")⟩ :: [(⟨"divider", none⟩ : Entry)]).length =
      [(⟨"divider", none⟩ : Entry)].length + 1 :=
  empty_markdown_skipped ext0 d0 [] [Block.DividerBlock] "hello"
    [⟨"divider", none⟩]
    (⟨"markdown", some (.str "hello")⟩ :: [⟨"divider", none⟩])
    (by decide) (by rfl) (by rfl)

/-- C1 (counterexample): the claim "persist_finding never raises to its
caller" is false — with a 200 response, a finding whose enrichment holds a
`FileBlock` with a dotless filename makes `persist_finding` raise the
`ValueError` escaping from `to_evidence`. -/
theorem persist_finding_can_raise :
    (persist_finding ext0 netOk env0 "2024-01-01T00:00:00" d0 fRaise).1 =
      .error (.valueError "substring not found") := by rfl

/-- C1 (amended): on any insert status outside {200, 201} neither
`persist_finding` nor `persist_service` raises: the write is abandoned after
exactly one remote call (no resend), the failure is logged, and the
rate-limited re-authentication (`sign_in` via `handle_supabase_error`) is
invoked; `persist_service` never raises for any status.  (`persist_finding`
may still raise on a success status while reading the response row or
encoding enrichments.) -/
theorem persist_write_paths_error_handling (ext : Externals)
    (net : Nat → RpcResponse) (env : SignInEnv) (nowIso : String) (d : Dal)
    (f : Finding) (s : ServiceInfo) :
    (statusIn (net 0).status_code [200, 201] = false →
      ∃ lg, persist_finding ext net env nowIso d f =
        (.ok (), (sign_in env d).1,
         [.insert_finding (to_issue ext nowIso d f)],
         "Failed to persist finding. Dropping Finding" :: lg))
    ∧ exceptOk (persist_service ext net env d s).1 = true
    ∧ (persist_service ext net env d s).2.2.1 =
        [TableCall.insert (to_service ext d s) true]
    ∧ (statusIn (net 0).status_code [200, 201] = false →
      ∃ lg, persist_service ext net env d s =
        (.ok (), (sign_in env d).1,
         [TableCall.insert (to_service ext d s) true],
         "Failed to persist service" :: lg)) := by
  have hh := handle_spec env d
  refine ⟨?_, ?_, ?_, ?_⟩
  · intro h
    have heq : persist_finding ext net env nowIso d f =
        (.ok (), (sign_in env d).1,
         [.insert_finding (to_issue ext nowIso d f)],
         "Failed to persist finding. Dropping Finding" ::
           ((sign_in env d).2.2.2 ++
             if (sign_in env d).2.2.1.isSome then ["Failed to signin on error"]
             else [])) := by
      simp [persist_finding, h, hh]
    exact ⟨_, heq⟩
  · by_cases hs : statusIn (net 0).status_code [200, 201] <;>
      simp [persist_service, hs, hh, exceptOk]
  · by_cases hs : statusIn (net 0).status_code [200, 201] <;>
      simp [persist_service, hs, hh]
  · intro h
    have heq : persist_service ext net env d s =
        (.ok (), (sign_in env d).1,
         [TableCall.insert (to_service ext d s) true],
         "Failed to persist service" ::
           ((sign_in env d).2.2.2 ++
             if (sign_in env d).2.2.1.isSome then ["Failed to signin on error"]
             else [])) := by
      simp [persist_service, h, hh]
    exact ⟨_, heq⟩

/-- C1 (witness): with a 500 response both write paths return normally. -/
theorem persist_write_paths_error_handling_w :
    (persist_finding ext0 netBad env0 "t" d0 fGood).1 = .ok () ∧
    (persist_service ext0 netBad env0 d0 svc0).1 = .ok () := by
  have h := persist_write_paths_error_handling ext0 netBad env0 "t" d0 fGood svc0
  obtain ⟨lg1, hpf⟩ := h.1 (by rfl)
  obtain ⟨lg2, hps⟩ := h.2.2.2 (by rfl)
  rw [hpf, hps]
  exact ⟨rfl, rfl⟩

/-- C2 (counterexample): the claim "every enrichment is attempted exactly
once regardless of individual encoding failures" is false — `fTwo` has two
enrichments and its Issue insert succeeds, yet after the first enrichment's
encoding raises, no enrichment insert at all is attempted (the remote-call
trace holds only the Issue insert). -/
theorem enrichment_loop_short_circuits :
    fTwo.enrichments.length = 2 ∧
    (persist_finding ext0 netOk env0 "t" d0 fTwo).2.2.1 =
      [.insert_finding (to_issue ext0 "t" d0 fTwo)] :=
  ⟨rfl, rfl⟩

/-- C2 (amended): for every finding whose Issue insert succeeds (status in
{200, 201}) with a non-empty data row and whose enrichments all encode
without raising, `persist_finding` sends every enrichment's evidence exactly
once, in order — independently of the status each enrichment insert gets
back (no short-circuiting on a failed send). -/
theorem enrichments_each_sent_once (ext : Externals) (net : Nat → RpcResponse)
    (env : SignInEnv) (nowIso : String) (d : Dal) (f : Finding)
    (evidOf : Enrichment → WireEvidence) (row : FindingRow)
    (rest : List FindingRow)
    (h1 : statusIn (net 0).status_code [200, 201] = true)
    (h2 : (net 0).data = row :: rest)
    (h3 : ∀ e ∈ f.enrichments,
      (to_evidence ext d (optToStr row.id) e).1 = .ok (evidOf e)) :
    (persist_finding ext net env nowIso d f).1 = .ok () ∧
    (persist_finding ext net env nowIso d f).2.2.1 =
      RpcCall.insert_finding (to_issue ext nowIso d f) ::
        f.enrichments.map (fun e => RpcCall.insert_enrichment (evidOf e)) := by
  obtain ⟨hA, hB⟩ :=
    persist_enrichments_all_sent ext net d (optToStr row.id) evidOf
      f.enrichments 1 h3
  constructor
  · simp [persist_finding, h1, h2, hA]
  · simp [persist_finding, h1, h2, hB]

/-- C2 (witness): a finding with two well-formed enrichments where the first
enrichment insert is rejected (500) still sends both evidences, in order. -/
theorem enrichments_each_sent_once_w :
    (persist_finding ext0 netMixed env0 "t" d0 fGood).1 = .ok () ∧
    (persist_finding ext0 netMixed env0 "t" d0 fGood).2.2.1 =
      RpcCall.insert_finding (to_issue ext0 "t" d0 fGood) ::
        fGood.enrichments.map
          (fun e => RpcCall.insert_enrichment (evid0 e)) := by
  refine enrichments_each_sent_once ext0 netMixed env0 "t" d0 fGood evid0
    ⟨some "fid1", some true⟩ [] rfl rfl ?_
  intro e he
  simp only [fGood, mkFinding, List.mem_cons, List.not_mem_nil, or_false] at he
  rcases he with rfl | rfl <;> rfl

/-- The three `eq` filters of the services query select precisely the rows
with the configured account id, the configured cluster and `deleted = false`. -/
theorem activeFilters_spec (d : Dal) (store : List ServicesTableRow) :
    applyFilters store (activeServicesFilters d) =
      store.filter (fun r =>
        decide (r.account_id = d.account_id ∧ r.cluster = d.cluster ∧
          r.deleted = false)) := by
  unfold applyFilters
  apply List.filter_congr
  intro r _
  by_cases h1 : r.account_id = d.account_id <;>
    by_cases h2 : r.cluster = d.cluster <;>
      by_cases h3 : r.deleted = false <;>
        simp [activeServicesFilters, matchesFilter, rowField, h1, h2, h3]

/-- C4: `get_active_services` returns, on a 200 response, exactly the stored
service rows matching the configured account id, the configured cluster and
`deleted = false` (any row failing a filter is excluded), and on any other
status it raises an error to its caller after invoking the recovery path. -/
theorem get_active_services_contract (store : List ServicesTableRow)
    (status : Option Int) (env : SignInEnv) (d : Dal) :
    (statusIn status [200] = true →
      get_active_services store status env d =
        (.ok ((store.filter (fun r =>
            decide (r.account_id = d.account_id ∧ r.cluster = d.cluster ∧
              r.deleted = false))).map rowToServiceInfo), d, []))
    ∧ (statusIn status [200] = false →
      ∃ lg, get_active_services store status env d =
        (.error (.exn "Failed to get existing services (supabase)"),
         (sign_in env d).1,
         "Failed to get existing services (supabase)" :: lg)) := by
  have hh := handle_spec env d
  constructor
  · intro h
    simp [get_active_services, h, activeFilters_spec]
  · intro h
    have heq : get_active_services store status env d =
        (.error (.exn "Failed to get existing services (supabase)"),
         (sign_in env d).1,
         "Failed to get existing services (supabase)" ::
           ((sign_in env d).2.2.2 ++
             if (sign_in env d).2.2.1.isSome then ["Failed to signin on error"]
             else [])) := by
      simp [get_active_services, h, hh]
    exact ⟨_, heq⟩

/-- C4 (witness): on `store0` (one matching row, one wrong account, one wrong
cluster, one deleted) status 200 returns exactly the matching row, and status
500 is raised. -/
theorem get_active_services_contract_w :
    (get_active_services store0 (some 200) env0 d0).1 =
      .ok [⟨"s1", "deployment", "default", "app", false⟩] ∧
    exceptOk (get_active_services store0 (some 500) env0 d0).1 = false := by
  have h1 := (get_active_services_contract store0 (some 200) env0 d0).1 rfl
  obtain ⟨lg, h2⟩ := (get_active_services_contract store0 (some 500) env0 d0).2 rfl
  rw [h1, h2]
  exact ⟨rfl, rfl⟩

/-- C5: the timestamp check rate-limits sign-in — after an actual sign-in at
`t1`, a second attempt less than the configured interval later performs no
login call, and a third attempt made after the interval has elapsed performs
the second actual login call. -/
theorem sign_in_rate_limited (d : Dal) (a1 a2 a3 : Option PyErr)
    (t1 t2 t3 : Nat)
    (h1 : d.sign_in_time + d.login_rate_limit < t1)
    (h2 : t2 < t1 + d.login_rate_limit)
    (h3 : t1 + d.login_rate_limit < t3) :
    (sign_in ⟨t1, a1⟩ d).2.1 = true ∧
    (sign_in ⟨t2, a2⟩ (sign_in ⟨t1, a1⟩ d).1).2.1 = false ∧
    (sign_in ⟨t3, a3⟩ (sign_in ⟨t2, a2⟩ (sign_in ⟨t1, a1⟩ d).1).1).2.1 =
      true := by
  have e1 : sign_in ⟨t1, a1⟩ d =
      ({ d with sign_in_time := t1 }, true, a1, ["Supabase dal login"]) := by
    simp [sign_in]
    omega
  rw [e1]
  have e2 : sign_in ⟨t2, a2⟩ { d with sign_in_time := t1 } =
      ({ d with sign_in_time := t1 }, false, none, []) := by
    simp [sign_in]
    omega
  rw [e2]
  refine ⟨rfl, rfl, ?_⟩
  simp [sign_in]
  rw [if_pos h3]

/-- C5 (witness): limit 900, attempts at 1000, 1500 and 2000 starting from a
last-attempt timestamp of 0 — login calls happen at 1000 and 2000 only. -/
theorem sign_in_rate_limited_w :
    (sign_in ⟨1000, none⟩ d0).2.1 = true ∧
    (sign_in ⟨1500, none⟩ (sign_in ⟨1000, none⟩ d0).1).2.1 = false ∧
    (sign_in ⟨2000, none⟩
      (sign_in ⟨1500, none⟩ (sign_in ⟨1000, none⟩ d0).1).1).2.1 = true :=
  sign_in_rate_limited d0 none none none 1000 1500 2000
    (by decide) (by decide) (by decide)

/-- C10: `sign_in` records the attempt timestamp before issuing the login
call — an attempt whose login raises still sets `sign_in_time` to its clock
value, the exception escapes, and any sign-in attempt made within the
configured interval of the failed one is a complete no-op (state unchanged,
no login call, no exception, no log). -/
theorem failed_sign_in_consumes_window (d : Dal) (t tNext : Nat) (e : PyErr)
    (aNext : Option PyErr)
    (h1 : d.sign_in_time + d.login_rate_limit < t)
    (h2 : tNext ≤ t + d.login_rate_limit) :
    (sign_in ⟨t, some e⟩ d).2.2.1 = some e ∧
    (sign_in ⟨t, some e⟩ d).1.sign_in_time = t ∧
    sign_in ⟨tNext, aNext⟩ (sign_in ⟨t, some e⟩ d).1 =
      ((sign_in ⟨t, some e⟩ d).1, false, none, []) := by
  have e1 : sign_in ⟨t, some e⟩ d =
      ({ d with sign_in_time := t }, true, some e, ["Supabase dal login"]) := by
    simp [sign_in]
    omega
  rw [e1]
  refine ⟨rfl, rfl, ?_⟩
  simp [sign_in]
  omega

/-- C10 (witness): a failed login at 1000 (limit 900) blocks the attempt at
1900. -/
theorem failed_sign_in_consumes_window_w :
    (sign_in ⟨1000, some .indexError⟩ d0).1.sign_in_time = 1000 ∧
    sign_in ⟨1900, none⟩ (sign_in ⟨1000, some .indexError⟩ d0).1 =
      ((sign_in ⟨1000, some .indexError⟩ d0).1, false, none, []) := by
  have h := failed_sign_in_consumes_window d0 1000 1900 .indexError none
    (by decide) (by decide)
  exact ⟨h.2.1, h.2.2⟩

/-- C6: `handle_supabase_error` never raises: it always returns `.ok`, its
state and attempt flag are exactly those of the rate-limited `sign_in` it
invokes, and an exception raised inside that sign-in attempt surfaces only as
an extra log line. -/
theorem handle_supabase_error_never_propagates (env : SignInEnv) (d : Dal) :
    handle_supabase_error env d =
      .ok ((sign_in env d).1, (sign_in env d).2.1,
        (sign_in env d).2.2.2 ++
          (if (sign_in env d).2.2.1.isSome then ["Failed to signin on error"]
           else [])) :=
  handle_spec env d

/-- C7: every wire record carries the configured tenancy binding — the Issue
record from `to_issue` carries `account_id` and the configured cluster (as
`subject_cluster`), every Evidence record `to_evidence` produces carries
`account_id`, and the Service record from `to_service` carries both
`account_id` and `cluster`. -/
theorem wire_records_carry_tenancy (ext : Externals) (nowIso : String)
    (d : Dal) (f : Finding) (fid : String) (e : Enrichment)
    (ev : WireEvidence) (s : ServiceInfo) :
    (to_issue ext nowIso d f).account_id = d.account_id
    ∧ (to_issue ext nowIso d f).subject_cluster = d.cluster
    ∧ ((to_evidence ext d fid e).1 = .ok ev → ev.account_id = d.account_id)
    ∧ (to_service ext d s).account_id = d.account_id
    ∧ (to_service ext d s).cluster = d.cluster := by
  refine ⟨rfl, rfl, ?_, rfl, rfl⟩
  intro h
  unfold to_evidence at h
  rcases hh : encodeBlocks ext d e.blocks with ⟨r, lg⟩
  rw [hh] at h
  cases r with
  | error err => simp at h
  | ok entries =>
    simp only at h
    injection h with h
    rw [← h]

/-- C7 (witness): the theorem evaluated on the concrete fixtures. -/
theorem wire_records_carry_tenancy_w :
    evDivider.account_id = d0.account_id ∧
    (to_issue ext0 "t" d0 fGood).account_id = d0.account_id ∧
    (to_service ext0 d0 svc0).cluster = d0.cluster := by
  have h := wire_records_carry_tenancy ext0 "t" d0 fGood "f" enrDivider
    evDivider svc0
  exact ⟨h.2.2.1 rfl, h.1, h.2.2.2.2⟩

/-- C8: `to_issue` maps a Finding field-for-field onto the Issue record;
severity is encoded by its symbolic name (which is never the decimal of its
ordinal), category and subject type by their symbolic string values,
`start_date` is the encode-time UTC timestamp and `end_date` is null. -/
theorem to_issue_field_mapping (ext : Externals) (nowIso : String) (d : Dal)
    (f : Finding) :
    (to_issue ext nowIso d f).priority = f.severity.name
    ∧ (∀ sv : FindingSeverity,
        FindingSeverity.name sv ≠ toString (FindingSeverity.value sv))
    ∧ (to_issue ext nowIso d f).category = f.finding_type.value
    ∧ (to_issue ext nowIso d f).subject_type = f.subject.subject_type.value
    ∧ (to_issue ext nowIso d f).start_date = nowIso
    ∧ (to_issue ext nowIso d f).end_date = none
    ∧ (to_issue ext nowIso d f).name = f.aggregation_key
    ∧ (to_issue ext nowIso d f).fingerprint = f.fingerprint
    ∧ (to_issue ext nowIso d f).title = f.title
    ∧ (to_issue ext nowIso d f).description = f.description
    ∧ (to_issue ext nowIso d f).is_failure = f.failure
    ∧ (to_issue ext nowIso d f).subject_name = f.subject.name
    ∧ (to_issue ext nowIso d f).subject_namespace = f.subject.namespace_
    ∧ (to_issue ext nowIso d f).source = f.source.value
    ∧ (to_issue ext nowIso d f).service_key =
        ext.guess_service_key f.subject.name f.subject.namespace_ := by
  refine ⟨rfl, ?_, rfl, rfl, rfl, rfl, rfl, rfl, rfl, rfl, rfl, rfl, rfl, rfl,
    rfl⟩
  intro sv
  cases sv <;> decide

/-- C8 (witness): the field mapping evaluated on the concrete fixture — a
HIGH severity is encoded as the string "HIGH" and the ordinal 4 never appears. -/
theorem to_issue_field_mapping_w :
    (to_issue ext0 "2024-01-01T00:00:00" d0 fGood).priority = "HIGH" ∧
    FindingSeverity.name .HIGH ≠ toString (FindingSeverity.value .HIGH) := by
  have h := to_issue_field_mapping ext0 "2024-01-01T00:00:00" d0 fGood
  exact ⟨by rw [h.1]; rfl, h.2.1 .HIGH⟩
